import Mathlib

/-!
Verification of the ETL weather pipeline (`src/etl_weather.py`).

The pipeline is embedded shallowly: temperatures are rationals (the Python
code manipulates JSON numbers and rounds them with pandas `.round(2)`, whose
idealised semantics is round-half-to-even at two decimals), records are
structures mirroring the dict/DataFrame columns, the database is a list of
rows, and the failure points of the loader (connect / cursor / execute) are
enumerated explicitly so that the try/except/finally control flow of
`load_to_supabase` can be traced path by path.
-/

/-- Round-half-to-even on a rational, the idealised semantics of
`numpy.round` / `pandas.Series.round` used at `etl_weather.py` lines 74-75. -/
def roundHalfEven (q : ℚ) : ℤ :=
  if q - (⌊q⌋ : ℚ) < 1/2 then ⌊q⌋
  else if 1/2 < q - (⌊q⌋ : ℚ) then ⌊q⌋ + 1
  else if ⌊q⌋ % 2 = 0 then ⌊q⌋ else ⌊q⌋ + 1

/-- `round(x, 2)`: round to two decimal places, ties to even. -/
def round2 (q : ℚ) : ℚ := (roundHalfEven (q * 100) : ℚ) / 100

/-- `str.title()` on a list of characters: an alphabetic character is
uppercased when the previous character was not alphabetic, lowercased
otherwise (pandas `.str.title()`, `etl_weather.py` line 78). -/
def titleCaseGo : Bool → List Char → List Char
  | _, [] => []
  | prevAlpha, c :: cs =>
    let c' := if c.isAlpha then (if prevAlpha then c.toLower else c.toUpper) else c
    c' :: titleCaseGo c.isAlpha cs

/-- `str.title()` on a string. -/
def titleCase (s : String) : String := ⟨titleCaseGo false s.data⟩

/-- The fields `extract_weather` reads from the provider's JSON body:
`name`, `main.temp` (Celsius, `units=metric`), `main.humidity`,
`weather[0].description`. -/
structure RawResponse where
  name : String
  temp : ℚ
  humidity : ℤ
  description : String
deriving Repr, DecidableEq

/-- The record built by `extract_weather` (lines 48-55): one row of the
raw DataFrame. -/
structure WeatherRecord where
  date : String
  city : String
  temp_kelvin : ℚ
  temp_celsius : ℚ
  humidity : ℤ
  description : String
deriving Repr, DecidableEq

/-- A row of the transformed DataFrame returned by `transform_weather`:
the raw columns plus the added `data_quality` column. -/
structure TransformedRecord where
  date : String
  city : String
  temp_kelvin : ℚ
  temp_celsius : ℚ
  humidity : ℤ
  description : String
  data_quality : String
deriving Repr, DecidableEq

/-- Outcome of the single `requests.get` call: either a parsed JSON body or
an exception (network failure, non-2xx via `raise_for_status`, or a parse
error). -/
inductive FetchResult where
  | success (resp : RawResponse)
  | failure (msg : String)
deriving Repr, DecidableEq

/-- Lines 48-55: the raw record. `temp_kelvin` is the *unrounded* Celsius
plus 273.15; `temp_celsius` is the unrounded Celsius. `date` is the
extraction-time UTC timestamp (passed in as `now`). -/
def parseRecord (now : String) (d : RawResponse) : WeatherRecord :=
  { date := now
    city := d.name
    temp_kelvin := d.temp + 273.15
    temp_celsius := d.temp
    humidity := d.humidity
    description := d.description }

/-- `extract_weather` (lines 32-63): on a successful fetch, build the
one-row DataFrame; on any exception, print the failure and return `None`. -/
def extract_weather (now : String) : FetchResult → Option WeatherRecord
  | .success d => some (parseRecord now d)
  | .failure _ => none

/-- `extract_weather` viewed against a schedule of fetch outcomes
(`fetches n` is what the `n`-th HTTP attempt would return). The body of
the function contains a single `requests.get` with no loop and no sleep,
so exactly attempt `0` is consumed; the second component is the number of
attempts made. -/
def extract_weather_sched (now : String) (fetches : ℕ → FetchResult) :
    Option WeatherRecord × ℕ :=
  (extract_weather now (fetches 0), 1)

/-- Line 81: `"Good" if 30 <= h <= 90 else "Check"`. -/
def data_quality (h : ℤ) : String :=
  if 30 ≤ h ∧ h ≤ 90 then "Good" else "Check"

/-- Lines 71-81 applied to one row: round both temperatures to 2 decimals,
title-case the city, add the quality flag; `date`, `humidity` and
`description` are untouched. -/
def transformRecord (r : WeatherRecord) : TransformedRecord :=
  { date := r.date
    city := titleCase r.city
    temp_kelvin := round2 r.temp_kelvin
    temp_celsius := round2 r.temp_celsius
    humidity := r.humidity
    description := r.description
    data_quality := data_quality r.humidity }

/-- `transform_weather` (lines 66-84): `None` or an empty DataFrame
short-circuits to `None`; otherwise the function works on a copy
(`df.copy()`, line 71) and returns the transformed rows. -/
def transform_weather : Option (List WeatherRecord) → Option (List TransformedRecord)
  | none => none
  | some [] => none
  | some rs => some (rs.map transformRecord)

/-- A row of the `weather_data` table. The `INSERT` at lines 97-111 names
exactly the columns `(date, city, temp_kelvin, temp_celsius, humidity,
description)`, so a stored row has these six fields and no others. -/
structure StoredRow where
  date : String
  city : String
  temp_kelvin : ℚ
  temp_celsius : ℚ
  humidity : ℤ
  description : String
deriving Repr, DecidableEq

/-- The column list of the `INSERT` statement at line 98. -/
def insertColumns : List String :=
  ["date", "city", "temp_kelvin", "temp_celsius", "humidity", "description"]

/-- Lines 104-111: the six values bound to the `INSERT` placeholders for one
row of the transformed DataFrame (`data_quality` is not among them). -/
def toStored (r : TransformedRecord) : StoredRow :=
  { date := r.date
    city := r.city
    temp_kelvin := r.temp_kelvin
    temp_celsius := r.temp_celsius
    humidity := r.humidity
    description := r.description }

/-- Modelled from the spec: the `weather_data` table is created outside this
repository (no DDL under `src/`), so its uniqueness constraint is taken from
the spec, which keys natural uniqueness on `(observed_at, city)` (or just
`observed_at`). We key on `(date, city)`. -/
def rowKey (r : StoredRow) : String × String := (r.date, r.city)

/-- Modelled from the spec: `INSERT ... ON CONFLICT DO NOTHING` (line 100)
against the spec's uniqueness constraint — if a stored row with the same key
exists, the insert silently does nothing; otherwise the row is appended. -/
def insertOnConflictDoNothing (db : List StoredRow) (r : StoredRow) : List StoredRow :=
  if db.any (fun s => decide (rowKey s = rowKey r)) then db else db ++ [r]

/-- Which step of a load attempt raises, if any: `psycopg2.connect`
(line 93), `conn.cursor()` (line 94), or `cur.execute`/`conn.commit`
(lines 103-113). `ok` is the exception-free run. -/
inductive DbEnv where
  | connectFails
  | cursorFails
  | execFails
  | ok
deriving Repr, DecidableEq

/-- Observable outcome of one `load_to_supabase` call: the committed table
state, whether a connection was opened / closed, whether `conn.rollback()`
ran, which exception (if any) propagated to the caller, and whether the
`"Load failed"` / `"No data to load"` messages were printed. -/
structure LoadResult where
  db : List StoredRow
  connOpened : Bool
  connClosed : Bool
  rolledBack : Bool
  raised : Option String
  printedLoadFailed : Bool
  printedNoData : Bool
deriving Repr, DecidableEq

/-- `load_to_supabase` (lines 87-122), traced path by path:

* `df is None or df.empty` (lines 88-90): print `"No data to load."`, return —
  no database access at all.
* `connect` raises: the `except` block prints `"Load failed"`, then
  `conn.rollback()` raises `NameError` (`conn` was never bound); the `finally`
  block's `cur.close()` raises a fresh `NameError` which propagates. No
  connection was ever opened.
* `cursor` raises after a successful connect: `except` prints and rolls back,
  then `finally`'s `cur.close()` raises `NameError` (`cur` unbound) and
  `conn.close()` on the next line is never reached — the connection leaks and
  `NameError` propagates.
* `execute`/`commit` raises: `except` prints `"Load failed"` and rolls back,
  `finally` closes cursor and connection, and the function returns normally —
  the original error is swallowed.
* no exception: every row is inserted with conflict-skip, the transaction is
  committed, `finally` closes cursor and connection. -/
def load_to_supabase (env : DbEnv) (df : Option (List TransformedRecord))
    (db : List StoredRow) : LoadResult :=
  match df with
  | none =>
    { db := db, connOpened := false, connClosed := false, rolledBack := false
      raised := none, printedLoadFailed := false, printedNoData := true }
  | some [] =>
    { db := db, connOpened := false, connClosed := false, rolledBack := false
      raised := none, printedLoadFailed := false, printedNoData := true }
  | some rs =>
    match env with
    | .connectFails =>
      { db := db, connOpened := false, connClosed := false, rolledBack := false
        raised := some "NameError", printedLoadFailed := true, printedNoData := false }
    | .cursorFails =>
      { db := db, connOpened := true, connClosed := false, rolledBack := true
        raised := some "NameError", printedLoadFailed := true, printedNoData := false }
    | .execFails =>
      { db := db, connOpened := true, connClosed := true, rolledBack := true
        raised := none, printedLoadFailed := true, printedNoData := false }
    | .ok =>
      { db := rs.foldl (fun d r => insertOnConflictDoNothing d (toStored r)) db
        connOpened := true, connClosed := true, rolledBack := false
        raised := none, printedLoadFailed := false, printedNoData := false }

/-- Observable trace of one pipeline cycle (`run_full_etl`, lines 140-147,
which has the same structure as the one-shot block at lines 126-134). -/
structure EtlRun where
  extracted : Option (List WeatherRecord)
  transformInvoked : Bool
  loadInvoked : Bool
  raised : Option String
  db : List StoredRow
deriving Repr, DecidableEq

/-- `run_full_etl` (lines 140-147): extract; if the result is not `None`,
transform; if that is not `None`, load. A `None` from extraction skips both
later stages and the function returns normally (nothing is raised by the
cycle itself). -/
def run_full_etl (now : String) (fetch : FetchResult) (env : DbEnv)
    (db : List StoredRow) : EtlRun :=
  match extract_weather now fetch with
  | none =>
    { extracted := none, transformInvoked := false, loadInvoked := false
      raised := none, db := db }
  | some r =>
    match transform_weather (some [r]) with
    | none =>
      { extracted := some [r], transformInvoked := true, loadInvoked := false
        raised := none, db := db }
    | some ts =>
      let lr := load_to_supabase env (some ts) db
      { extracted := some [r], transformInvoked := true, loadInvoked := true
        raised := lr.raised, db := lr.db }

/-- Process-level state of the script: how many pipeline cycles have
started, whether the process has terminated (and with which exit code),
and the stored table. -/
structure ScriptState where
  pipelineRuns : ℕ
  exited : Bool
  exitCode : Option ℕ
  db : List StoredRow
deriving Repr, DecidableEq

/-- The environment one scheduler tick sees: whether the daily trigger is
due, the extraction timestamp, the provider's fetch outcome, and which
database step (if any) would fail. -/
structure TickInput where
  due : Bool
  now : String
  fetch : FetchResult
  env : DbEnv
deriving Repr, DecidableEq

/-- The module body up to the scheduler loop: the `__main__` block
(lines 126-134) runs one full pipeline cycle. Nothing at module level
catches exceptions, so if the cycle's load stage raises (the `NameError`
escaping `load_to_supabase`'s cleanup), the exception is unhandled and the
interpreter terminates with a non-zero exit code (modelled as 1, CPython's
code for an unhandled exception). Otherwise execution falls through to the
scheduler registration (line 150) and the `while True` loop (lines
157-159) — no `sys.exit` and no exit code 0 is ever reached. -/
def mainPrelude (now0 : String) (fetch0 : FetchResult) (env0 : DbEnv)
    (db0 : List StoredRow) : ScriptState :=
  let c := run_full_etl now0 fetch0 env0 db0
  { pipelineRuns := 1
    exited := c.raised.isSome
    exitCode := if c.raised.isSome then some 1 else none
    db := c.db }

/-- One iteration of the `while True` loop (lines 157-159):
`schedule.run_pending()` runs a full cycle exactly when the daily trigger
is due, then `time.sleep(60)`. Neither the loop nor `run_full_etl` catches
anything, so a due cycle whose load stage raises escapes the loop and
terminates the process with a non-zero exit code; a clean tick continues
the loop (the body contains no `break`, `return` or `sys.exit`). -/
def schedulerTick (t : TickInput) (s : ScriptState) : ScriptState :=
  if s.exited then s
  else if t.due then
    let c := run_full_etl t.now t.fetch t.env s.db
    { pipelineRuns := s.pipelineRuns + 1
      exited := c.raised.isSome
      exitCode := if c.raised.isSome then some 1 else none
      db := c.db }
  else s

/-- The script after the one-shot block plus `n` iterations of the
`while True` scheduler loop. -/
def scriptRun (now0 : String) (fetch0 : FetchResult) (env0 : DbEnv)
    (db0 : List StoredRow) (ticks : ℕ → TickInput) : ℕ → ScriptState
  | 0 => mainPrelude now0 fetch0 env0 db0
  | n + 1 => schedulerTick (ticks n) (scriptRun now0 fetch0 env0 db0 ticks n)


/-! ### Rounding lemmas -/

/-- Adding an integer commutes with round-half-to-even away from ties. -/
theorem roundHalfEven_add_int (q : ℚ) (n : ℤ) (h : q - (⌊q⌋ : ℚ) ≠ 1/2) :
    roundHalfEven (q + (n : ℚ)) = roundHalfEven q + n := by
  unfold roundHalfEven
  rw [Int.floor_add_int]
  have hr : q + (n : ℚ) - ((⌊q⌋ + n : ℤ) : ℚ) = q - (⌊q⌋ : ℚ) := by push_cast; ring
  rw [hr]
  rcases lt_or_gt_of_ne h with hlt | hgt
  · rw [if_pos hlt, if_pos hlt]
  · rw [if_neg (not_lt_of_gt hgt), if_neg (not_lt_of_gt hgt), if_pos hgt, if_pos hgt]
    ring

/-- Round-half-to-even fixes integers. -/
theorem roundHalfEven_intCast (n : ℤ) : roundHalfEven (n : ℚ) = n := by
  unfold roundHalfEven
  rw [Int.floor_intCast, sub_self]
  norm_num

/-- Away from rounding ties at the second decimal, adding the whole-cents
constant 273.15 commutes with `round2`. -/
theorem round2_add_const (c : ℚ) (h : c * 100 - ((⌊c * 100⌋ : ℤ) : ℚ) ≠ 1/2) :
    round2 (c + 273.15) = round2 c + 273.15 := by
  unfold round2
  have h1 : (c + 273.15) * 100 = c * 100 + ((27315 : ℤ) : ℚ) := by push_cast; norm_num; ring
  rw [h1, roundHalfEven_add_int _ _ h]
  push_cast
  norm_num
  ring

/-- `round2 c + 273.15` is already at two decimals, so rounding it again is
the identity. -/
theorem round2_idem_add_const (c : ℚ) :
    round2 (round2 c + 273.15) = round2 c + 273.15 := by
  unfold round2
  have h1 : ((roundHalfEven (c * 100) : ℚ) / 100 + 273.15) * 100
      = ((roundHalfEven (c * 100) + 27315 : ℤ) : ℚ) := by push_cast; norm_num; ring
  rw [h1, roundHalfEven_intCast]
  push_cast
  norm_num
  ring

/-! ### Claim theorems -/

/-- C1 (amended): for every provider response with raw Celsius `c`, the
transformed record stores `temp_kelvin = round(c + 273.15, 2)` and
`temp_celsius = round(c, 2)`; and whenever `100·c` is not an exact rounding
tie (its fractional part is not 1/2), the stored pair also satisfies the
derived invariant `temp_kelvin = round(temp_celsius + 273.15, 2)`. At a tie
the invariant fails, because round-half-to-even resolves `100·c + 27315`
(odd shift) and `100·c` in opposite directions. -/
theorem transform_temperature_rounding (now : String) (d : RawResponse)
    (h : d.temp * 100 - ((⌊d.temp * 100⌋ : ℤ) : ℚ) ≠ 1/2) :
    (transformRecord (parseRecord now d)).temp_kelvin = round2 (d.temp + 273.15) ∧
    (transformRecord (parseRecord now d)).temp_celsius = round2 d.temp ∧
    (transformRecord (parseRecord now d)).temp_kelvin
      = round2 ((transformRecord (parseRecord now d)).temp_celsius + 273.15) := by
  refine ⟨rfl, rfl, ?_⟩
  show round2 (d.temp + 273.15) = round2 (round2 d.temp + 273.15)
  rw [round2_add_const d.temp h, round2_idem_add_const d.temp]

/-- C1 witness: the invariant holds at the concrete response temperature
15.436 °C, which is not a rounding tie. -/
theorem transform_temperature_rounding_witness :
    (transformRecord (parseRecord "2026-01-01T00:00:00Z"
        ⟨"Bournemouth", 15436/1000, 55, "clear sky"⟩)).temp_kelvin
      = round2 ((transformRecord (parseRecord "2026-01-01T00:00:00Z"
        ⟨"Bournemouth", 15436/1000, 55, "clear sky"⟩)).temp_celsius + 273.15) :=
  (transform_temperature_rounding "2026-01-01T00:00:00Z"
    ⟨"Bournemouth", 15436/1000, 55, "clear sky"⟩ (by norm_num)).2.2

/-- C1 counterexample: at raw Celsius `c = 0.005` (an exact tie at the
second decimal) the stored Kelvin of the transformed record is 273.16 while
`round(stored Celsius + 273.15, 2) = 273.15`, so the claimed invariant
`temperature_kelvin == round(temperature_celsius + 273.15, 2)` fails. -/
theorem kelvin_invariant_tie_counterexample :
    (transformRecord (parseRecord "2026-01-01T00:00:00Z"
        ⟨"Bournemouth", 1/200, 55, "clear sky"⟩)).temp_kelvin
      ≠ round2 ((transformRecord (parseRecord "2026-01-01T00:00:00Z"
        ⟨"Bournemouth", 1/200, 55, "clear sky"⟩)).temp_celsius + 273.15) := by
  show round2 (1/200 + 273.15) ≠ round2 (round2 (1/200) + 273.15)
  norm_num [round2, roundHalfEven]

/-- C2 (amended): the quality flag is `"Good"` exactly on the inclusive band
`30 ≤ h ≤ 90` used at line 81, and `"Check"` exactly outside it. -/
theorem data_quality_band (h : ℤ) :
    (data_quality h = "Good" ↔ 30 ≤ h ∧ h ≤ 90) ∧
    (data_quality h = "Check" ↔ ¬(30 ≤ h ∧ h ≤ 90)) := by
  by_cases hb : 30 ≤ h ∧ h ≤ 90
  · exact ⟨by simp [data_quality, hb], by simp [data_quality, hb]⟩
  · exact ⟨by simp [data_quality, hb], by simp [data_quality, hb]⟩

/-- C2 counterexample: humidity 25 lies in the claimed band `[20,100]`, yet
the code flags it `"Check"`, not `"Good"` — the band implemented at line 81
is `[30,90]`. -/
theorem data_quality_band_20_100_counterexample :
    (20 : ℤ) ≤ 25 ∧ (25 : ℤ) ≤ 100 ∧
    data_quality 25 = "Check" ∧ data_quality 25 ≠ "Good" := by decide

/-- C3: inserting a record whose `(date, city)` key equals that of an
already-stored row is a no-op — the table is unchanged, the row count is
unchanged, the existing row survives unmodified — and the conflict-skip
insert is idempotent. -/
theorem insert_duplicate_noop (db : List StoredRow) (r s : StoredRow)
    (hs : s ∈ db) (hk : rowKey s = rowKey r) :
    insertOnConflictDoNothing db r = db ∧
    (insertOnConflictDoNothing db r).length = db.length ∧
    s ∈ insertOnConflictDoNothing db r ∧
    insertOnConflictDoNothing (insertOnConflictDoNothing db r) r
      = insertOnConflictDoNothing db r := by
  have hnoop : insertOnConflictDoNothing db r = db := by
    unfold insertOnConflictDoNothing
    rw [if_pos]
    rw [List.any_eq_true]
    exact ⟨s, hs, by simp [hk]⟩
  refine ⟨hnoop, by rw [hnoop], by rw [hnoop]; exact hs, by rw [hnoop, hnoop]⟩

/-- C3 witness: a second insert carrying the same timestamp and city but
different measurements leaves the stored table exactly as it was. -/
theorem insert_duplicate_noop_witness :
    insertOnConflictDoNothing
      [⟨"2026-01-01T08:00:00Z", "Bournemouth", 28859/100, 1544/100, 55, "clear sky"⟩]
      ⟨"2026-01-01T08:00:00Z", "Bournemouth", 28900/100, 1500/100, 60, "light rain"⟩
      = [⟨"2026-01-01T08:00:00Z", "Bournemouth", 28859/100, 1544/100, 55, "clear sky"⟩] :=
  (insert_duplicate_noop
    [⟨"2026-01-01T08:00:00Z", "Bournemouth", 28859/100, 1544/100, 55, "clear sky"⟩]
    ⟨"2026-01-01T08:00:00Z", "Bournemouth", 28900/100, 1500/100, 60, "light rain"⟩
    ⟨"2026-01-01T08:00:00Z", "Bournemouth", 28859/100, 1544/100, 55, "clear sky"⟩
    (List.mem_singleton_self _) rfl).1

/-- C5 (amended): when the provider call fails, Transform and Load are never
invoked and no record is produced, and the failure is printed — but nothing
is raised: `extract_weather` swallows the exception and returns `None`, so
the cycle completes normally instead of being aborted by a raised error. -/
theorem extraction_failure_skips_stages (now msg : String) (env : DbEnv)
    (db : List StoredRow) :
    extract_weather now (.failure msg) = none ∧
    run_full_etl now (.failure msg) env db =
      { extracted := none, transformInvoked := false, loadInvoked := false
        raised := none, db := db } := ⟨rfl, rfl⟩

/-- C5 counterexample: on a simulated network error the cycle raises
nothing (`raised = none`), contradicting the claim that the error is raised
and the cycle aborted. -/
theorem extraction_failure_not_raised_counterexample :
    (run_full_etl "2026-01-01T08:00:00Z" (.failure "simulated network error")
        .ok []).raised = none ∧
    (run_full_etl "2026-01-01T08:00:00Z" (.failure "simulated network error")
        .ok []).transformInvoked = false ∧
    (run_full_etl "2026-01-01T08:00:00Z" (.failure "simulated network error")
        .ok []).loadInvoked = false := ⟨rfl, rfl, rfl⟩

/-- C6 (amended): when `cur.execute`/`conn.commit` fails, the transaction is
rolled back, cursor and connection are closed, and the failure is printed —
but the error is swallowed (`raised = none`), not re-raised. When
`conn.cursor()` fails, the rollback runs but the `finally` block's
`cur.close()` raises `NameError` before `conn.close()`, so the connection is
never released. When `psycopg2.connect` fails, cleanup itself raises
`NameError`. -/
theorem load_error_paths (r : TransformedRecord) (rs : List TransformedRecord)
    (db : List StoredRow) :
    load_to_supabase .execFails (some (r :: rs)) db =
      { db := db, connOpened := true, connClosed := true, rolledBack := true
        raised := none, printedLoadFailed := true, printedNoData := false } ∧
    load_to_supabase .cursorFails (some (r :: rs)) db =
      { db := db, connOpened := true, connClosed := false, rolledBack := true
        raised := some "NameError", printedLoadFailed := true, printedNoData := false } ∧
    load_to_supabase .connectFails (some (r :: rs)) db =
      { db := db, connOpened := false, connClosed := false, rolledBack := false
        raised := some "NameError", printedLoadFailed := true, printedNoData := false } :=
  ⟨rfl, rfl, rfl⟩

/-- C6 counterexample: an execute-stage failure is rolled back and printed
but nothing propagates to the caller (`raised = none`), contradicting
"re-raised after cleanup"; and a cursor-stage failure leaves the connection
unreleased (`connClosed = false`), contradicting "released on every exit
path". -/
theorem load_error_swallowed_counterexample :
    (load_to_supabase .execFails
      (some [⟨"2026-01-01T08:00:00Z", "Bournemouth", 28859/100, 1544/100, 55,
        "clear sky", "Good"⟩]) []).raised = none ∧
    (load_to_supabase .cursorFails
      (some [⟨"2026-01-01T08:00:00Z", "Bournemouth", 28859/100, 1544/100, 55,
        "clear sky", "Good"⟩]) []).connClosed = false := ⟨rfl, rfl⟩

/-- C7: a `None` or empty input short-circuits silently: the transformer
returns `None` (it is a total function, so nothing is raised), and the
loader opens no connection, raises nothing, and leaves the table untouched. -/
theorem no_record_short_circuit (env : DbEnv) (db : List StoredRow) :
    transform_weather none = none ∧
    transform_weather (some []) = none ∧
    (load_to_supabase env none db).connOpened = false ∧
    (load_to_supabase env none db).raised = none ∧
    (load_to_supabase env none db).db = db ∧
    (load_to_supabase env (some []) db).connOpened = false ∧
    (load_to_supabase env (some []) db).raised = none ∧
    (load_to_supabase env (some []) db).db = db :=
  ⟨rfl, rfl, rfl, rfl, rfl, rfl, rfl, rfl⟩

/-- C8 (amended): the extractor makes exactly one HTTP attempt per
invocation — the outcome is entirely decided by attempt 0, there is no
retry loop and no inter-attempt delay; a failed attempt immediately yields
no record. -/
theorem extract_single_attempt (now : String) (fetches : ℕ → FetchResult) :
    (extract_weather_sched now fetches).2 = 1 ∧
    (extract_weather_sched now fetches).1 = extract_weather now (fetches 0) :=
  ⟨rfl, rfl⟩

/-- C8 counterexample: with a fetch schedule that fails on attempt 0 and
would succeed on attempt 1, the extractor returns no record after a single
attempt — it never performs the retries the claim describes. -/
theorem extract_no_retry_counterexample :
    extract_weather_sched "2026-01-01T08:00:00Z"
      (fun n => if n = 0 then .failure "network error"
        else .success ⟨"Bournemouth", 15, 55, "clear sky"⟩)
      = (none, 1) := rfl

/-- The script's exit code is only ever absent (still running) or 1 (an
unhandled exception): no control path produces exit code 0. -/
theorem scriptRun_exitCode_cases (now0 : String) (fetch0 : FetchResult)
    (env0 : DbEnv) (db0 : List StoredRow) (ticks : ℕ → TickInput) (n : ℕ) :
    (scriptRun now0 fetch0 env0 db0 ticks n).exitCode = none ∨
    (scriptRun now0 fetch0 env0 db0 ticks n).exitCode = some 1 := by
  induction n with
  | zero =>
    by_cases h : (run_full_etl now0 fetch0 env0 db0).raised.isSome = true
    · right
      simp [scriptRun, mainPrelude, h]
    · left
      simp [scriptRun, mainPrelude, h]
  | succ k ih =>
    show (schedulerTick (ticks k) (scriptRun now0 fetch0 env0 db0 ticks k)).exitCode
          = none ∨
        (schedulerTick (ticks k) (scriptRun now0 fetch0 env0 db0 ticks k)).exitCode
          = some 1
    unfold schedulerTick
    by_cases he : (scriptRun now0 fetch0 env0 db0 ticks k).exited = true
    · rw [if_pos he]
      exact ih
    · rw [if_neg he]
      by_cases hd : (ticks k).due = true
      · rw [if_pos hd]
        by_cases hr : (run_full_etl (ticks k).now (ticks k).fetch (ticks k).env
            (scriptRun now0 fetch0 env0 db0 ticks k).db).raised.isSome = true
        · right
          simp [hr]
        · left
          simp [hr]
      · rw [if_neg hd]
        exact ih

/-- C9 (amended): a one-shot invocation runs the pipeline once, but the
claimed clean-exit-0 never happens: `exitCode = some 0` is unreachable for
every tick count. When the one-shot cycle's load stage fails with an
unhandled error, the process does terminate at once with the non-zero code
1 after exactly one run; on clean completion it does not exit at all —
execution falls through into the `while True` scheduler loop — and once the
process has exited, its state never changes again. -/
theorem script_exit_behavior (now0 : String) (fetch0 : FetchResult)
    (env0 : DbEnv) (db0 : List StoredRow) (ticks : ℕ → TickInput) :
    (∀ n, (scriptRun now0 fetch0 env0 db0 ticks n).exitCode ≠ some 0) ∧
    ((run_full_etl now0 fetch0 env0 db0).raised.isSome = true →
      (scriptRun now0 fetch0 env0 db0 ticks 0).exited = true ∧
      (scriptRun now0 fetch0 env0 db0 ticks 0).exitCode = some 1 ∧
      (scriptRun now0 fetch0 env0 db0 ticks 0).pipelineRuns = 1) ∧
    ((run_full_etl now0 fetch0 env0 db0).raised = none →
      (scriptRun now0 fetch0 env0 db0 ticks 0).exited = false ∧
      (scriptRun now0 fetch0 env0 db0 ticks 0).exitCode = none ∧
      (scriptRun now0 fetch0 env0 db0 ticks 0).pipelineRuns = 1) ∧
    (∀ n, (scriptRun now0 fetch0 env0 db0 ticks n).exited = true →
      scriptRun now0 fetch0 env0 db0 ticks (n + 1)
        = scriptRun now0 fetch0 env0 db0 ticks n) := by
  refine ⟨?_, ?_, ?_, ?_⟩
  · intro n h0
    rcases scriptRun_exitCode_cases now0 fetch0 env0 db0 ticks n with h | h <;>
      rw [h] at h0 <;> simp at h0
  · intro hr
    exact ⟨by simp [scriptRun, mainPrelude, hr],
      by simp [scriptRun, mainPrelude, hr], rfl⟩
  · intro hn
    exact ⟨by simp [scriptRun, mainPrelude, hn],
      by simp [scriptRun, mainPrelude, hn], rfl⟩
  · intro n hex
    show schedulerTick (ticks n) (scriptRun now0 fetch0 env0 db0 ticks n) = _
    unfold schedulerTick
    rw [if_pos hex]

/-- C9 witness: with a reachable database the one-shot cycle completes
cleanly and the process is still running with no exit code; with an
unreachable database (`psycopg2.connect` raises, so the cleanup `NameError`
escapes) the process terminates at once with exit code 1. -/
theorem script_exit_behavior_witness :
    ((scriptRun "2026-01-01T08:00:00Z"
        (.success ⟨"Bournemouth", 15436/1000, 55, "clear sky"⟩) .ok []
        (fun _ => ⟨false, "2026-01-02T08:00:00Z", .failure "network error", .ok⟩)
        0).exitCode = none) ∧
    ((scriptRun "2026-01-01T08:00:00Z"
        (.success ⟨"Bournemouth", 15436/1000, 55, "clear sky"⟩) .connectFails []
        (fun _ => ⟨false, "2026-01-02T08:00:00Z", .failure "network error", .ok⟩)
        0).exitCode = some 1) :=
  ⟨((script_exit_behavior "2026-01-01T08:00:00Z"
      (.success ⟨"Bournemouth", 15436/1000, 55, "clear sky"⟩) .ok []
      (fun _ => ⟨false, "2026-01-02T08:00:00Z", .failure "network error", .ok⟩)).2.2.1
      rfl).2.1,
   ((script_exit_behavior "2026-01-01T08:00:00Z"
      (.success ⟨"Bournemouth", 15436/1000, 55, "clear sky"⟩) .connectFails []
      (fun _ => ⟨false, "2026-01-02T08:00:00Z", .failure "network error", .ok⟩)).2.1
      rfl).2.1⟩

/-- C9 counterexample: a clean one-shot run never reaches "terminate with
exit code 0": ten scheduler ticks after the single pipeline run the script
is still inside the loop — one cycle has run, the process has not exited,
and no exit code exists. -/
theorem script_no_clean_exit_counterexample :
    (scriptRun "2026-01-01T08:00:00Z" (.failure "network error") .ok []
      (fun _ => ⟨false, "2026-01-02T08:00:00Z", .failure "network error", .ok⟩)
      10).pipelineRuns = 1 ∧
    (scriptRun "2026-01-01T08:00:00Z" (.failure "network error") .ok []
      (fun _ => ⟨false, "2026-01-02T08:00:00Z", .failure "network error", .ok⟩)
      10).exited = false ∧
    (scriptRun "2026-01-01T08:00:00Z" (.failure "network error") .ok []
      (fun _ => ⟨false, "2026-01-02T08:00:00Z", .failure "network error", .ok⟩)
      10).exitCode = none := by decide

/-- C10: `transform_weather` is a pure function of its input in this
embedding (it returns a fresh record built from the copied row, mutating
nothing and touching no network or storage), and on each row it preserves
`date`, `humidity` and `description` exactly while changing only the two
temperature fields (rounded), the city (title-cased) and the added
`data_quality` flag. -/
theorem transform_field_preservation (r : WeatherRecord) :
    (transformRecord r).date = r.date ∧
    (transformRecord r).humidity = r.humidity ∧
    (transformRecord r).description = r.description ∧
    (transformRecord r).temp_celsius = round2 r.temp_celsius ∧
    (transformRecord r).temp_kelvin = round2 r.temp_kelvin ∧
    (transformRecord r).city = titleCase r.city ∧
    (transformRecord r).data_quality = data_quality r.humidity :=
  ⟨rfl, rfl, rfl, rfl, rfl, rfl, rfl⟩

/-- C4 (amended): on the Bournemouth response the pipeline stores the row
`(date, city="Bournemouth", temp_kelvin=288.59, temp_celsius=15.44,
humidity=55, description="clear sky")`, and the transformed record carries
`data_quality = "Good"` — but `data_quality` is not among the columns of the
`INSERT` statement, so the quality flag is computed and then discarded, not
stored. -/
theorem bournemouth_end_to_end :
    (run_full_etl "2026-01-01T08:00:00Z"
        (.success ⟨"Bournemouth", 15.436, 55, "clear sky"⟩) .ok []).db =
      [{ date := "2026-01-01T08:00:00Z", city := "Bournemouth"
         temp_kelvin := 288.59, temp_celsius := 15.44, humidity := 55
         description := "clear sky" }] ∧
    (transformRecord (parseRecord "2026-01-01T08:00:00Z"
        ⟨"Bournemouth", 15.436, 55, "clear sky"⟩)).data_quality = "Good" ∧
    "data_quality" ∉ insertColumns := by
  have hcity : titleCase "Bournemouth" = "Bournemouth" := by decide
  have hc : round2 (15.436 : ℚ) = 15.44 := by norm_num [round2, roundHalfEven]
  have hk : round2 ((15.436 : ℚ) + 273.15) = 288.59 := by
    norm_num [round2, roundHalfEven]
  refine ⟨?_, by decide, by decide⟩
  show [toStored (transformRecord (parseRecord "2026-01-01T08:00:00Z"
      ⟨"Bournemouth", 15.436, 55, "clear sky"⟩))] = _
  simp [toStored, transformRecord, parseRecord, hcity, hc, hk]

/-- C4 counterexample: the `INSERT` statement at line 98 names exactly six
columns and `data_quality` is not one of them — the claimed stored field
`data_quality="Good"` is never persisted, even though the transformed
record carries it. -/
theorem data_quality_not_stored_counterexample :
    "data_quality" ∉ insertColumns ∧
    insertColumns =
      ["date", "city", "temp_kelvin", "temp_celsius", "humidity", "description"] := by
  decide
